import Mathlib

set_option autoImplicit false

namespace Appstreamlit

/-! Shallow embedding of the scheduling logic of `pages/2_Calendar.py`.

Timestamps: Python `datetime.combine(date, time)` is modelled as the integer
`date_ordinal * 1440 + minutes_since_midnight`, where `date_ordinal` is the
proleptic-Gregorian ordinal of the date (Python `date.toordinal`, with
0001-01-01 as day 1) and times of day are minutes parsed from the sheet
string `"HH:MM"`.  Adding `timedelta(minutes=k)` is adding `k`.  Comparison
of `datetime` values is comparison of these integers. -/

/-- A row of the `appointments` worksheet as consumed by
`check_scheduling_conflict` (`pages/2_Calendar.py:436`): `Date` as a calendar
date (its ordinal), `Time` as minutes since midnight, `Duration` in minutes,
and the free-form `Status` string. -/
structure Booking where
  date : Int
  time : Nat
  duration : Nat
  status : String
  deriving Repr, DecidableEq

/-- The skip rule at `pages/2_Calendar.py:454`:
`existing["Status"] in ["Cancelled", "No-show"]`. -/
def excludedStatus (b : Booking) : Bool :=
  b.status == "Cancelled" || b.status == "No-show"

/-- The overlap test at `pages/2_Calendar.py:464`:
`(new_start < existing_end) and (new_end > existing_start)`. -/
def overlapTest (newStart newEnd existingStart existingEnd : Int) : Bool :=
  newStart < existingEnd && newEnd > existingStart

/-- The `for` loop at `pages/2_Calendar.py:453-465` over the same-day rows:
rows with status `Cancelled` or `No-show` are skipped (`continue`); each other
row is anchored at the candidate date (`datetime.combine(appointment_date,
existing_time)`) and the function returns `True` at the first overlap. -/
def conflictLoop (d : Int) (t dur : Nat) : List Booking → Bool
  | [] => false
  | b :: rest =>
      if excludedStatus b then conflictLoop d t dur rest
      else
        let newStart : Int := d * 1440 + t
        let newEnd : Int := newStart + dur
        let existingStart : Int := d * 1440 + b.time
        let existingEnd : Int := existingStart + b.duration
        if overlapTest newStart newEnd existingStart existingEnd then true
        else conflictLoop d t dur rest

/-- The function `check_scheduling_conflict(appointment_date, appointment_time,
duration)` at `pages/2_Calendar.py:436-467`.  `hasCreds` models
`"gsheets_creds" in st.session_state`; `table` models the result of
`get_sheet_as_df("appointments")` (`none` for `None`); the same-day filter is
`df[df["Date"] == appointment_date]` at line 451. -/
def check_scheduling_conflict (hasCreds : Bool) (table : Option (List Booking))
    (d : Int) (t dur : Nat) : Bool :=
  if !hasCreds then false
  else
    match table with
    | none => false
    | some rows =>
        if rows.isEmpty then false
        else conflictLoop d t dur (rows.filter (fun b => b.date == d))

/-- The same loop as `conflictLoop`, returning the row at which the source loop
returns `True` — the first same-day surviving overlapping row in input order —
or `none` when the loop falls through to `return False`. -/
def findConflict (d : Int) (t dur : Nat) : List Booking → Option Booking
  | [] => none
  | b :: rest =>
      if excludedStatus b then findConflict d t dur rest
      else
        let newStart : Int := d * 1440 + t
        let newEnd : Int := newStart + dur
        let existingStart : Int := d * 1440 + b.time
        let existingEnd : Int := existingStart + b.duration
        if overlapTest newStart newEnd existingStart existingEnd then some b
        else findConflict d t dur rest

/-- Modelled from the spec: the record `ConflictResult` of section 4.2; the
source function returns only the boolean, and the conflicting booking is the
row at which the source loop returns `True`. -/
structure ConflictResult where
  has_conflict : Bool
  conflicting_booking : Option Booking
  deriving Repr, DecidableEq

/-- Modelled from the spec: operation `check_conflict(candidate,
existing_bookings)` of section 4.2, packaging the source loop
(`pages/2_Calendar.py:450-467`) as a `ConflictResult`.  The candidate is
`(d, t, dur)`: date ordinal, start minutes, duration minutes. -/
def check_conflict (d : Int) (t dur : Nat) (existing : List Booking) :
    ConflictResult :=
  let r := findConflict d t dur (existing.filter (fun b => b.date == d))
  ⟨r.isSome, r⟩

/-! Calendar windowing, `pages/2_Calendar.py:56-68`. -/

/-- A calendar date as year/month/day, like Python `datetime.date`. -/
structure Date where
  year : Nat
  month : Nat
  day : Nat
  deriving Repr, DecidableEq

/-- Gregorian leap-year rule, as implemented by Python `calendar.isleap`. -/
def isLeap (y : Nat) : Bool :=
  (y % 4 == 0 && y % 100 != 0) || (y % 400 == 0)

/-- Number of days in a month of the Gregorian calendar. -/
def daysInMonth (y m : Nat) : Nat :=
  if m = 2 then (if isLeap y then 29 else 28)
  else if m = 4 ∨ m = 6 ∨ m = 9 ∨ m = 11 then 30
  else 31

/-- Days in year `y` strictly before month `m` (0 for January and for
out-of-range month numbers). -/
def daysBeforeMonth (y : Nat) (m : Nat) : Nat :=
  match m with
  | 2 => 31
  | 3 => 31 + daysInMonth y 2
  | 4 => 62 + daysInMonth y 2
  | 5 => 92 + daysInMonth y 2
  | 6 => 123 + daysInMonth y 2
  | 7 => 153 + daysInMonth y 2
  | 8 => 184 + daysInMonth y 2
  | 9 => 215 + daysInMonth y 2
  | 10 => 245 + daysInMonth y 2
  | 11 => 276 + daysInMonth y 2
  | 12 => 306 + daysInMonth y 2
  | _ => 0

/-- Proleptic-Gregorian ordinal of a date, 0001-01-01 being day 1: exactly
Python `date.toordinal()`. -/
def toOrdinalNat (d : Date) : Nat :=
  365 * (d.year - 1) + (d.year - 1) / 4 - (d.year - 1) / 100 + (d.year - 1) / 400
    + daysBeforeMonth d.year d.month + d.day

/-- Date ordinal as an integer, so that `timedelta` subtraction is integer
subtraction. -/
def toOrdinal (d : Date) : Int :=
  (toOrdinalNat d : Int)

/-- Python `date.weekday()`: Monday is 0 and Sunday is 6; day 1 of the
proleptic-Gregorian calendar (0001-01-01) is a Monday. -/
def weekday (d : Date) : Int :=
  (toOrdinal d - 1) % 7

/-- The view-mode dispatch at `pages/2_Calendar.py:56-68`, returned as the
inclusive ordinal range used to filter the `Date` column.  `Day` is line 57,
`Week` is lines 59-61, and the `else` branch (lines 62-68) — taken for every
other view-mode string — is the `Month` view with its explicit December
rollover. -/
def resolveWindow (viewMode : String) (d : Date) : Int × Int :=
  if viewMode = "Day" then (toOrdinal d, toOrdinal d)
  else if viewMode = "Week" then
    let startWeek := toOrdinal d - weekday d
    (startWeek, startWeek + 6)
  else
    let startMonth := toOrdinal { d with day := 1 }
    let endMonth : Int :=
      if d.month = 12 then toOrdinal ⟨d.year + 1, 1, 1⟩ - 1
      else toOrdinal ⟨d.year, d.month + 1, 1⟩ - 1
    (startMonth, endMonth)

/-! Helper lemmas about the conflict loop. -/

/-- The loop-body test applied to one row: the candidate `(d, t, dur)` against
the row anchored at the candidate date, exactly as in the loop body. -/
def rowOverlaps (d : Int) (t dur : Nat) (b : Booking) : Bool :=
  overlapTest (d * 1440 + t) (d * 1440 + t + dur)
    (d * 1440 + b.time) (d * 1440 + b.time + b.duration)

theorem excludedStatus_iff (b : Booking) :
    excludedStatus b = true ↔ b.status = "Cancelled" ∨ b.status = "No-show" := by
  simp [excludedStatus]

theorem findConflict_cons (d : Int) (t dur : Nat) (b : Booking) (l : List Booking) :
    findConflict d t dur (b :: l)
      = if excludedStatus b then findConflict d t dur l
        else if rowOverlaps d t dur b then some b else findConflict d t dur l := rfl

theorem conflictLoop_cons (d : Int) (t dur : Nat) (b : Booking) (l : List Booking) :
    conflictLoop d t dur (b :: l)
      = if excludedStatus b then conflictLoop d t dur l
        else if rowOverlaps d t dur b then true else conflictLoop d t dur l := rfl

theorem conflictLoop_eq_isSome (d : Int) (t dur : Nat) (l : List Booking) :
    conflictLoop d t dur l = (findConflict d t dur l).isSome := by
  induction l with
  | nil => rfl
  | cons b rest ih =>
      rw [conflictLoop_cons, findConflict_cons]
      by_cases h1 : excludedStatus b = true
      · simp [h1, ih]
      · by_cases h2 : rowOverlaps d t dur b = true <;> simp [h1, h2, ih]

theorem findConflict_eq_find? (d : Int) (t dur : Nat) (l : List Booking) :
    findConflict d t dur l
      = l.find? (fun b => !excludedStatus b && rowOverlaps d t dur b) := by
  induction l with
  | nil => rfl
  | cons b rest ih =>
      rw [findConflict_cons]
      by_cases h1 : excludedStatus b = true
      · rw [if_pos h1, ih, List.find?_cons_of_neg]
        simp [h1]
      · by_cases h2 : rowOverlaps d t dur b = true
        · rw [if_neg h1, if_pos h2, List.find?_cons_of_pos _ (by simp [h1, h2])]
        · rw [if_neg h1, if_neg h2, ih, List.find?_cons_of_neg]
          simp [h1, h2]

theorem find?_filter_eq {α : Type} (l : List α) (q p : α → Bool) :
    (l.filter q).find? p = l.find? (fun a => q a && p a) := by
  induction l with
  | nil => rfl
  | cons a rest ih =>
      rw [List.filter_cons]
      by_cases hq : q a = true
      · rw [if_pos hq]
        by_cases hp : p a = true
        · rw [List.find?_cons_of_pos _ hp, List.find?_cons_of_pos _ (by simp [hq, hp])]
        · rw [List.find?_cons_of_neg _ hp, ih, List.find?_cons_of_neg _ (by simp [hp])]
      · rw [if_neg hq, ih, List.find?_cons_of_neg _ (by simp [hq])]

theorem find?_insert_of_neg {α : Type} (p : α → Bool) (xs ys : List α) (b : α)
    (h : ¬ p b = true) :
    (xs ++ b :: ys).find? p = (xs ++ ys).find? p := by
  induction xs with
  | nil => simpa using List.find?_cons_of_neg ys h
  | cons x xs ih =>
      by_cases hx : p x = true
      · simp only [List.cons_append, List.find?_cons_of_pos _ hx]
      · simp only [List.cons_append, List.find?_cons_of_neg _ hx, ih]

/-- The predicate that characterises the row reported by the source loop. -/
def conflictPred (d : Int) (t dur : Nat) (b : Booking) : Bool :=
  b.date == d && (!excludedStatus b && rowOverlaps d t dur b)

theorem check_conflict_eq_find? (d : Int) (t dur : Nat) (l : List Booking) :
    check_conflict d t dur l
      = ⟨(l.find? (conflictPred d t dur)).isSome, l.find? (conflictPred d t dur)⟩ := by
  show (⟨(findConflict d t dur (l.filter (fun b => b.date == d))).isSome,
          findConflict d t dur (l.filter (fun b => b.date == d))⟩ : ConflictResult) = _
  rw [findConflict_eq_find?, find?_filter_eq]
  rfl

theorem check_scheduling_conflict_eq_model (d : Int) (t dur : Nat) (rows : List Booking) :
    check_scheduling_conflict true (some rows) d t dur
      = (check_conflict d t dur rows).has_conflict := by
  by_cases h : rows = []
  · subst h; rfl
  · have hne : rows.isEmpty = false := by
      simpa [List.isEmpty_iff] using h
    simp only [check_scheduling_conflict, Bool.not_true, Bool.false_eq_true, if_false,
      hne, check_conflict, conflictLoop_eq_isSome]

/-! Claim theorems C1 to C4. -/

/-- C1: the conflict check treats two bookings as overlapping exactly when
`a.start < b.end` and `b.start < a.end` (ends being start plus duration);
back-to-back intervals (one ending exactly when the other starts) and pairs of
zero-duration intervals do not overlap, and in particular a candidate starting
exactly when an existing booking ends is reported as no conflict. -/
theorem overlap_semantics :
    (∀ s1 e1 s2 e2 : Int, overlapTest s1 e1 s2 e2 = true ↔ (s1 < e2 ∧ s2 < e1))
  ∧ (∀ s1 e1 s2 e2 : Int, e1 = s2 → overlapTest s1 e1 s2 e2 = false)
  ∧ (∀ s1 e1 s2 e2 : Int, s1 = e2 → overlapTest s1 e1 s2 e2 = false)
  ∧ (∀ s1 s2 : Int, overlapTest s1 s1 s2 s2 = false)
  ∧ (∀ (b : Booking) (d : Int) (dur : Nat),
      check_scheduling_conflict true (some [b]) d (b.time + b.duration) dur = false) := by
  refine ⟨?_, ?_, ?_, ?_, ?_⟩
  · intro s1 e1 s2 e2
    simp only [overlapTest, Bool.and_eq_true, decide_eq_true_eq, gt_iff_lt]
  · intro s1 e1 s2 e2 h
    simp only [overlapTest, Bool.and_eq_false_iff, decide_eq_false_iff_not, not_lt, gt_iff_lt]
    omega
  · intro s1 e1 s2 e2 h
    simp only [overlapTest, Bool.and_eq_false_iff, decide_eq_false_iff_not, not_lt, gt_iff_lt]
    omega
  · intro s1 s2
    simp only [overlapTest, Bool.and_eq_false_iff, decide_eq_false_iff_not, not_lt, gt_iff_lt]
    omega
  · intro b d dur
    rw [check_scheduling_conflict_eq_model, check_conflict_eq_find?]
    have hP : conflictPred d (b.time + b.duration) dur b = false := by
      have hrow : rowOverlaps d (b.time + b.duration) dur b = false := by
        simp only [rowOverlaps, overlapTest, Bool.and_eq_false_iff,
          decide_eq_false_iff_not, not_lt, gt_iff_lt]
        push_cast
        omega
      simp [conflictPred, hrow]
    show (List.find? (conflictPred d (b.time + b.duration) dur) [b]).isSome = false
    rw [List.find?_cons_of_neg _ (by simp [hP])]
    rfl

/-- C1 witness: the back-to-back concrete scenario — existing booking at
10:00 for 45 minutes, candidate at 10:45 — is reported as no conflict. -/
theorem overlap_semantics_witness :
    overlapTest 600 645 645 700 = false
  ∧ check_scheduling_conflict true
      (some [⟨739000, 600, 45, "Scheduled"⟩]) 739000 645 30 = false :=
  ⟨overlap_semantics.2.1 600 645 645 700 rfl,
   overlap_semantics.2.2.2.2 ⟨739000, 600, 45, "Scheduled"⟩ 739000 30⟩

/-- C2: bookings with status Cancelled or No-show are invisible to the
conflict check — inserting such a booking anywhere never changes the result
(at the spec interface and at the source boolean interface), and such a
booking is never the reported conflicting booking. -/
theorem cancelled_noshow_never_conflict :
    (∀ (d : Int) (t dur : Nat) (l1 l2 : List Booking) (b : Booking),
        b.status = "Cancelled" ∨ b.status = "No-show" →
        check_conflict d t dur (l1 ++ b :: l2) = check_conflict d t dur (l1 ++ l2))
  ∧ (∀ (d : Int) (t dur : Nat) (l1 l2 : List Booking) (b : Booking),
        b.status = "Cancelled" ∨ b.status = "No-show" →
        check_scheduling_conflict true (some (l1 ++ b :: l2)) d t dur
          = check_scheduling_conflict true (some (l1 ++ l2)) d t dur)
  ∧ (∀ (d : Int) (t dur : Nat) (l : List Booking) (b : Booking),
        (check_conflict d t dur l).conflicting_booking = some b →
        ¬ (b.status = "Cancelled" ∨ b.status = "No-show")) := by
  have key : ∀ (d : Int) (t dur : Nat) (l1 l2 : List Booking) (b : Booking),
      b.status = "Cancelled" ∨ b.status = "No-show" →
      check_conflict d t dur (l1 ++ b :: l2) = check_conflict d t dur (l1 ++ l2) := by
    intro d t dur l1 l2 b hb
    have hex : excludedStatus b = true := (excludedStatus_iff b).mpr hb
    have hP : ¬ conflictPred d t dur b = true := by
      simp [conflictPred, hex]
    rw [check_conflict_eq_find?, check_conflict_eq_find?, find?_insert_of_neg _ _ _ _ hP]
  refine ⟨key, ?_, ?_⟩
  · intro d t dur l1 l2 b hb
    rw [check_scheduling_conflict_eq_model, check_scheduling_conflict_eq_model,
      key d t dur l1 l2 b hb]
  · intro d t dur l b hfound
    rw [check_conflict_eq_find?] at hfound
    have hP : conflictPred d t dur b = true := List.find?_some hfound
    simp only [conflictPred, Bool.and_eq_true, beq_iff_eq, Bool.not_eq_true'] at hP
    intro hb
    have h2 := (excludedStatus_iff b).mpr hb
    rw [hP.2.1] at h2
    exact Bool.noConfusion h2

/-- C2 witness: the concrete Cancelled scenario — existing booking at 10:00
for 45 minutes with status Cancelled does not affect a candidate at 10:15. -/
theorem cancelled_noshow_never_conflict_witness :
    check_conflict 739000 615 30 [⟨739000, 600, 45, "Cancelled"⟩]
      = check_conflict 739000 615 30 [] :=
  cancelled_noshow_never_conflict.1 739000 615 30 [] []
    ⟨739000, 600, 45, "Cancelled"⟩ (Or.inl rfl)

/-- C3: `check_conflict` returns a `ConflictResult` whose boolean is exactly
the presence of a conflicting booking; the reported booking is the first
same-day, non-excluded, overlapping booking in the supplied input order; a
conflict is reported exactly when some surviving booking overlaps; the empty
collection yields no conflict; and the source boolean function agrees with
the model. -/
theorem check_conflict_first_match :
    (∀ (d : Int) (t dur : Nat) (l : List Booking),
        (check_conflict d t dur l).has_conflict
          = ((check_conflict d t dur l).conflicting_booking).isSome)
  ∧ (∀ (d : Int) (t dur : Nat) (l : List Booking),
        (check_conflict d t dur l).conflicting_booking
          = l.find? (fun b => b.date == d && (!excludedStatus b && rowOverlaps d t dur b)))
  ∧ (∀ (d : Int) (t dur : Nat) (l : List Booking),
        (check_conflict d t dur l).has_conflict = true ↔
          ∃ b ∈ l, b.date = d ∧ excludedStatus b = false ∧ rowOverlaps d t dur b = true)
  ∧ (∀ (d : Int) (t dur : Nat), check_conflict d t dur [] = ⟨false, none⟩)
  ∧ (∀ (d : Int) (t dur : Nat) (rows : List Booking),
        check_scheduling_conflict true (some rows) d t dur
          = (check_conflict d t dur rows).has_conflict) := by
  refine ⟨?_, ?_, ?_, ?_, check_scheduling_conflict_eq_model⟩
  · intro d t dur l
    rw [check_conflict_eq_find?]
  · intro d t dur l
    rw [check_conflict_eq_find?]
    rfl
  · intro d t dur l
    rw [check_conflict_eq_find?]
    show (l.find? (conflictPred d t dur)).isSome = true ↔ _
    rw [List.find?_isSome]
    constructor
    · rintro ⟨b, hmem, hP⟩
      simp only [conflictPred, Bool.and_eq_true, beq_iff_eq, Bool.not_eq_true'] at hP
      exact ⟨b, hmem, hP.1, hP.2.1, hP.2.2⟩
    · rintro ⟨b, hmem, hd, hex, hrow⟩
      exact ⟨b, hmem, by simp [conflictPred, hd, hex, hrow]⟩
  · intro d t dur
    rfl

/-- C3 witness: the concrete conflict scenario — existing booking 10:00 for 45
minutes, candidate 10:30 for 30 minutes — reports a conflict and cites the
10:00 booking. -/
theorem check_conflict_first_match_witness :
    (check_conflict 739000 630 30 [⟨739000, 600, 45, "Scheduled"⟩]).has_conflict = true :=
  (check_conflict_first_match.2.2.1 739000 630 30 [⟨739000, 600, 45, "Scheduled"⟩]).mpr
    ⟨⟨739000, 600, 45, "Scheduled"⟩, by decide, by decide, by decide, by decide⟩

/-- C4: only bookings whose date equals the candidate date are considered —
inserting a booking with any other date never changes the source boolean
result, and the reported conflicting booking always has the candidate date. -/
theorem conflict_same_day_only :
    (∀ (d : Int) (t dur : Nat) (l1 l2 : List Booking) (b : Booking), b.date ≠ d →
        check_scheduling_conflict true (some (l1 ++ b :: l2)) d t dur
          = check_scheduling_conflict true (some (l1 ++ l2)) d t dur)
  ∧ (∀ (d : Int) (t dur : Nat) (l : List Booking) (b : Booking),
        (check_conflict d t dur l).conflicting_booking = some b → b.date = d) := by
  constructor
  · intro d t dur l1 l2 b hb
    have hP : ¬ conflictPred d t dur b = true := by
      simp [conflictPred, hb]
    rw [check_scheduling_conflict_eq_model, check_scheduling_conflict_eq_model,
      check_conflict_eq_find?, check_conflict_eq_find?, find?_insert_of_neg _ _ _ _ hP]
  · intro d t dur l b hfound
    rw [check_conflict_eq_find?] at hfound
    have hP : conflictPred d t dur b = true := List.find?_some hfound
    simp only [conflictPred, Bool.and_eq_true, beq_iff_eq, Bool.not_eq_true'] at hP
    exact hP.1

/-- C4 witness: a booking dated one day after the candidate date never causes
a conflict, even at an overlapping time of day. -/
theorem conflict_same_day_only_witness :
    check_scheduling_conflict true (some [⟨739001, 600, 45, "Scheduled"⟩]) 739000 615 30
      = check_scheduling_conflict true (some []) 739000 615 30 :=
  conflict_same_day_only.1 739000 615 30 [] [] ⟨739001, 600, 45, "Scheduled"⟩ (by decide)

/-! Helper lemmas about the calendar windows. -/

theorem daysBeforeMonth_succ (y m : Nat) (h1 : 1 ≤ m) (h2 : m ≤ 11) :
    daysBeforeMonth y (m + 1) = daysBeforeMonth y m + daysInMonth y m := by
  interval_cases m <;> simp [daysBeforeMonth, daysInMonth] <;> omega

theorem daysBeforeMonth_twelve (y : Nat) :
    daysBeforeMonth y 12 = 334 + (if isLeap y then 1 else 0) := by
  rcases Bool.eq_false_or_eq_true (isLeap y) with h | h <;>
    simp [daysBeforeMonth, daysInMonth, h]

theorem div_four_pred (y : Nat) (h : 1 ≤ y) :
    y / 4 = (y - 1) / 4 + (if y % 4 = 0 then 1 else 0) := by
  by_cases h4 : y % 4 = 0 <;> simp [h4] <;> omega

theorem div_hundred_pred (y : Nat) (h : 1 ≤ y) :
    y / 100 = (y - 1) / 100 + (if y % 100 = 0 then 1 else 0) := by
  by_cases h100 : y % 100 = 0 <;> simp [h100] <;> omega

theorem div_fourhundred_pred (y : Nat) (h : 1 ≤ y) :
    y / 400 = (y - 1) / 400 + (if y % 400 = 0 then 1 else 0) := by
  by_cases h400 : y % 400 = 0 <;> simp [h400] <;> omega

theorem yearOrdinal_succ (y : Nat) (h : 1 ≤ y) :
    365 * y + y / 4 - y / 100 + y / 400
      = (365 * (y - 1) + (y - 1) / 4 - (y - 1) / 100 + (y - 1) / 400)
          + 365 + (if isLeap y then 1 else 0) := by
  have hiff : isLeap y = true ↔ ((y % 4 = 0 ∧ y % 100 ≠ 0) ∨ y % 400 = 0) := by
    simp [isLeap]
  rw [div_four_pred y h, div_hundred_pred y h, div_fourhundred_pred y h]
  by_cases hL : isLeap y = true
  · rw [if_pos hL]
    rw [hiff] at hL
    by_cases h4 : y % 4 = 0 <;> by_cases h100 : y % 100 = 0 <;>
      by_cases h400 : y % 400 = 0 <;> simp [h4, h100, h400] at hL ⊢ <;> omega
  · rw [if_neg hL]
    rw [hiff] at hL
    by_cases h4 : y % 4 = 0 <;> by_cases h100 : y % 100 = 0 <;>
      by_cases h400 : y % 400 = 0 <;> simp [h4, h100, h400] at hL ⊢ <;> omega

theorem resolveWindow_day_eq (d : Date) :
    resolveWindow "Day" d = (toOrdinal d, toOrdinal d) := by
  unfold resolveWindow
  rw [if_pos rfl]

theorem resolveWindow_week_eq (d : Date) :
    resolveWindow "Week" d
      = (toOrdinal d - weekday d, toOrdinal d - weekday d + 6) := by
  unfold resolveWindow
  rw [if_neg (by decide), if_pos rfl]

/-- The Month branch of the dispatch produces the inclusive range from the
first to the last calendar day of the month of `d`. -/
theorem monthWindow_eq (d : Date) (hy : 1 ≤ d.year) (hm1 : 1 ≤ d.month)
    (hm2 : d.month ≤ 12) :
    resolveWindow "Month" d
      = (toOrdinal ⟨d.year, d.month, 1⟩,
         toOrdinal ⟨d.year, d.month, daysInMonth d.year d.month⟩) := by
  unfold resolveWindow
  rw [if_neg (by decide), if_neg (by decide)]
  show (toOrdinal ⟨d.year, d.month, 1⟩,
      if d.month = 12 then toOrdinal ⟨d.year + 1, 1, 1⟩ - 1
      else toOrdinal ⟨d.year, d.month + 1, 1⟩ - 1) = _
  apply congrArg
  by_cases h12 : d.month = 12
  · rw [if_pos h12, h12]
    have hdim : daysInMonth d.year 12 = 31 := rfl
    have h1 : daysBeforeMonth (d.year + 1) 1 = 0 := rfl
    have h12' := daysBeforeMonth_twelve d.year
    have hys := yearOrdinal_succ d.year hy
    rw [hdim]
    simp only [toOrdinal, toOrdinalNat]
    omega
  · rw [if_neg h12]
    have hsucc := daysBeforeMonth_succ d.year d.month hm1 (by omega)
    simp only [toOrdinal, toOrdinalNat]
    omega

/-! Claim theorems C5 to C7, C9 and C10. -/

/-- C5: the Week window is the Monday-through-Sunday week containing the
reference date, both ends inclusive — its start is the reference ordinal
minus the weekday, its length is seven days, its start falls on a Monday and
its end on a Sunday, it contains the reference date, and on 2024-02-20 it is
2024-02-19 through 2024-02-25. -/
theorem resolveWindow_week_spec :
    (∀ d : Date, resolveWindow "Week" d
        = (toOrdinal d - weekday d, toOrdinal d - weekday d + 6))
  ∧ (∀ d : Date, ((resolveWindow "Week" d).1 - 1) % 7 = 0
        ∧ ((resolveWindow "Week" d).2 - 1) % 7 = 6
        ∧ (resolveWindow "Week" d).1 ≤ toOrdinal d
        ∧ toOrdinal d ≤ (resolveWindow "Week" d).2
        ∧ (resolveWindow "Week" d).2 = (resolveWindow "Week" d).1 + 6)
  ∧ resolveWindow "Week" ⟨2024, 2, 20⟩
      = (toOrdinal ⟨2024, 2, 19⟩, toOrdinal ⟨2024, 2, 25⟩) := by
  refine ⟨resolveWindow_week_eq, ?_, by decide⟩
  intro d
  rw [resolveWindow_week_eq d]
  exact ⟨by simp only [weekday]; omega, by simp only [weekday]; omega,
    by simp only [weekday]; omega, by simp only [weekday]; omega, rfl⟩

/-- C6: the Month window runs from the first to the last calendar day of the
month of the reference date, with the December-to-January rollover handled;
on 2024-12-15 it is 2024-12-01 through 2024-12-31. -/
theorem resolveWindow_month_spec :
    (∀ d : Date, 1 ≤ d.year → 1 ≤ d.month → d.month ≤ 12 →
        resolveWindow "Month" d
          = (toOrdinal ⟨d.year, d.month, 1⟩,
             toOrdinal ⟨d.year, d.month, daysInMonth d.year d.month⟩))
  ∧ resolveWindow "Month" ⟨2024, 12, 15⟩
      = (toOrdinal ⟨2024, 12, 1⟩, toOrdinal ⟨2024, 12, 31⟩) := by
  exact ⟨fun d hy hm1 hm2 => monthWindow_eq d hy hm1 hm2, by decide⟩

/-- C6 witness: the Month window of 2024-06-10 is 2024-06-01 through
2024-06-30. -/
theorem resolveWindow_month_spec_witness :
    resolveWindow "Month" ⟨2024, 6, 10⟩
      = (toOrdinal ⟨2024, 6, 1⟩, toOrdinal ⟨2024, 6, 30⟩) :=
  resolveWindow_month_spec.1 ⟨2024, 6, 10⟩ (by decide) (by decide) (by decide)

/-- C7 counterexample: the Week window of 2024-02-01 contains 2024-01-29
(its Monday), which lies strictly before the start of the Month window of
2024-02-01, so the Week window is not a subset of the Month window. -/
theorem week_window_escapes_month_window :
    (resolveWindow "Week" ⟨2024, 2, 1⟩).1 ≤ toOrdinal ⟨2024, 1, 29⟩
  ∧ toOrdinal ⟨2024, 1, 29⟩ ≤ (resolveWindow "Week" ⟨2024, 2, 1⟩).2
  ∧ toOrdinal ⟨2024, 1, 29⟩ < (resolveWindow "Month" ⟨2024, 2, 1⟩).1 := by
  decide

/-- C7 amended: for every valid date, the Day window is a subset of the Week
window and a subset of the Month window; the Week window need not be a subset
of the Month window, since a Monday-through-Sunday week may span a month
boundary. -/
theorem day_window_subsets (d : Date) (hy : 1 ≤ d.year) (hm1 : 1 ≤ d.month)
    (hm2 : d.month ≤ 12) (hd1 : 1 ≤ d.day)
    (hd2 : d.day ≤ daysInMonth d.year d.month) :
    ((resolveWindow "Week" d).1 ≤ (resolveWindow "Day" d).1
      ∧ (resolveWindow "Day" d).2 ≤ (resolveWindow "Week" d).2)
  ∧ ((resolveWindow "Month" d).1 ≤ (resolveWindow "Day" d).1
      ∧ (resolveWindow "Day" d).2 ≤ (resolveWindow "Month" d).2) := by
  rw [resolveWindow_day_eq, resolveWindow_week_eq, monthWindow_eq d hy hm1 hm2]
  constructor
  · dsimp only
    simp only [weekday]
    omega
  · dsimp only
    simp only [toOrdinal, toOrdinalNat]
    omega

/-- C7 witness: the Day window of 2024-02-01 lies inside both its Week window
and its Month window. -/
theorem day_window_subsets_witness :
    ((resolveWindow "Week" ⟨2024, 2, 1⟩).1 ≤ (resolveWindow "Day" ⟨2024, 2, 1⟩).1
      ∧ (resolveWindow "Day" ⟨2024, 2, 1⟩).2 ≤ (resolveWindow "Week" ⟨2024, 2, 1⟩).2)
  ∧ ((resolveWindow "Month" ⟨2024, 2, 1⟩).1 ≤ (resolveWindow "Day" ⟨2024, 2, 1⟩).1
      ∧ (resolveWindow "Day" ⟨2024, 2, 1⟩).2 ≤ (resolveWindow "Month" ⟨2024, 2, 1⟩).2) :=
  day_window_subsets ⟨2024, 2, 1⟩ (by decide) (by decide) (by decide) (by decide) (by decide)

/-- C9 counterexample: called with the unsupported granularity string
"Quarter", the view-mode dispatch does not fail — it returns the Month
window (the source has no error branch; its else-branch is the Month view). -/
theorem unsupported_granularity_returns_window :
    resolveWindow "Quarter" ⟨2024, 2, 20⟩ = resolveWindow "Month" ⟨2024, 2, 20⟩
  ∧ resolveWindow "Quarter" ⟨2024, 2, 20⟩
      = (toOrdinal ⟨2024, 2, 1⟩, toOrdinal ⟨2024, 2, 29⟩) := by
  decide

/-- C9 amended: every granularity value other than Day and Week is mapped to
the Month window; no error is ever raised — unsupported values are excluded
upstream only by the UI selectbox. -/
theorem unsupported_granularity_month_branch :
    ∀ (g : String) (d : Date), g ≠ "Day" → g ≠ "Week" →
      resolveWindow g d = resolveWindow "Month" d := by
  intro g d hD hW
  unfold resolveWindow
  rw [if_neg hD, if_neg hW, if_neg (show ¬("Month" : String) = "Day" by decide),
    if_neg (show ¬("Month" : String) = "Week" by decide)]

/-- C9 witness: the granularity string "Quarter" takes the Month branch. -/
theorem unsupported_granularity_month_branch_witness :
    resolveWindow "Quarter" ⟨2025, 7, 4⟩ = resolveWindow "Month" ⟨2025, 7, 4⟩ :=
  unsupported_granularity_month_branch "Quarter" ⟨2025, 7, 4⟩ (by decide) (by decide)

/-- C10: with no spreadsheet credentials in the session, or with an absent or
empty appointments table, the conflict check returns false — no conflict —
rather than failing. -/
theorem unavailable_store_reports_free :
    ∀ (creds : Bool) (table : Option (List Booking)) (d : Int) (t dur : Nat),
      creds = false ∨ table = none ∨ table = some [] →
      check_scheduling_conflict creds table d t dur = false := by
  rintro creds table d t dur (rfl | rfl | rfl)
  · rfl
  · cases creds <;> rfl
  · cases creds <;> rfl

/-- C10 witness: a session without credentials reports no conflict. -/
theorem unavailable_store_reports_free_witness :
    check_scheduling_conflict false none 739000 600 30 = false :=
  unavailable_store_reports_free false none 739000 600 30 (Or.inl rfl)

/-! Open-slot enumeration, modelled from the spec (section 4.2): no slot
enumeration exists anywhere in the source pages. -/

/-- Modelled from the spec: the break-window exclusion of `find_open_slots`
in section 4.2 — a candidate interval is excluded when it intersects the
optional break window, under the same half-open overlap rule as the conflict
check. -/
def breakIntersects (s dur : Nat) (brk : Option (Nat × Nat)) : Bool :=
  match brk with
  | none => false
  | some (bs, be) => overlapTest s (s + dur) bs be

/-- Modelled from the spec: operation `find_open_slots(date, business_hours,
service_duration_minutes, existing_bookings, slot_granularity_minutes)` of
section 4.2, which is absent from the source pages.  Candidate start times
run at slot-granularity steps from business open to business close minus the
service duration; candidates intersecting the break window are excluded; the
rest are kept exactly when `check_conflict` reports no conflict.  Slots are
returned in ascending start order as `(start, start + duration)` pairs of
minutes since midnight. -/
def find_open_slots (d : Int) (openT closeT : Nat) (brk : Option (Nat × Nat))
    (dur : Nat) (existing : List Booking) (gran : Nat) : List (Nat × Nat) :=
  if closeT < openT + dur then []
  else
    (((List.range ((closeT - dur - openT) / gran + 1)).map
        (fun i => openT + i * gran)).filter
      (fun s => !breakIntersects s dur brk
          && !(check_conflict d s dur existing).has_conflict)).map
      (fun s => (s, s + dur))

theorem find_open_slots_mem (d : Int) (openT closeT : Nat) (brk : Option (Nat × Nat))
    (dur : Nat) (existing : List Booking) (gran : Nat) (hg : 0 < gran) (s e : Nat) :
    (s, e) ∈ find_open_slots d openT closeT brk dur existing gran ↔
      ((∃ i : Nat, s = openT + i * gran) ∧ e = s + dur ∧ s + dur ≤ closeT
        ∧ breakIntersects s dur brk = false
        ∧ (check_conflict d s dur existing).has_conflict = false) := by
  unfold find_open_slots
  by_cases hfit : closeT < openT + dur
  · rw [if_pos hfit]
    simp only [List.not_mem_nil, false_iff]
    rintro ⟨⟨i, rfl⟩, he, hle, hbr, hcf⟩
    omega
  · rw [if_neg hfit]
    constructor
    · intro hmem
      rcases List.mem_map.mp hmem with ⟨s0, hs0, heq⟩
      rcases List.mem_filter.mp hs0 with ⟨hs0r, hpred⟩
      rcases List.mem_map.mp hs0r with ⟨i, hi, rfl⟩
      have hi' : i ≤ (closeT - dur - openT) / gran :=
        Nat.lt_succ_iff.mp (List.mem_range.mp hi)
      have hbound : i * gran ≤ closeT - dur - openT := (Nat.le_div_iff_mul_le hg).mp hi'
      injection heq with h1 h2
      subst h1
      subst h2
      simp only [Bool.and_eq_true, Bool.not_eq_true'] at hpred
      exact ⟨⟨i, rfl⟩, rfl, by omega, hpred.1, hpred.2⟩
    · rintro ⟨⟨i, rfl⟩, rfl, hle, hbr, hcf⟩
      apply List.mem_map.mpr
      refine ⟨openT + i * gran, ?_, rfl⟩
      apply List.mem_filter.mpr
      refine ⟨?_, ?_⟩
      · exact List.mem_map.mpr ⟨i, List.mem_range.mpr (Nat.lt_succ_iff.mpr
          ((Nat.le_div_iff_mul_le hg).mpr (by omega))), rfl⟩
      · simp only [Bool.and_eq_true, Bool.not_eq_true']
        exact ⟨hbr, hcf⟩

/-- C8: for business hours 09:00 to 17:00 with break 12:00 to 13:00, service
duration 60 minutes, slot granularity 30 minutes and no existing bookings,
the open slots form an ascending sequence whose first slot is 09:00 to 10:00
and last slot is 16:00 to 17:00, with no slot intersecting the break window;
in general, membership in the result is exactly: a candidate start at a
granularity step from business open, fitting before close, not intersecting
the break, and conflict-free. -/
theorem find_open_slots_spec :
    (find_open_slots 0 540 1020 (some (720, 780)) 60 [] 30).head? = some (540, 600)
  ∧ (find_open_slots 0 540 1020 (some (720, 780)) 60 [] 30).getLast? = some (960, 1020)
  ∧ (find_open_slots 0 540 1020 (some (720, 780)) 60 [] 30).Pairwise
      (fun p q => p.1 < q.1)
  ∧ (∀ p ∈ find_open_slots 0 540 1020 (some (720, 780)) 60 [] 30,
        overlapTest p.1 p.2 720 780 = false)
  ∧ (∀ (d : Int) (openT closeT : Nat) (brk : Option (Nat × Nat)) (dur : Nat)
        (existing : List Booking) (gran : Nat) (s e : Nat), 0 < gran →
        ((s, e) ∈ find_open_slots d openT closeT brk dur existing gran ↔
          ((∃ i : Nat, s = openT + i * gran) ∧ e = s + dur ∧ s + dur ≤ closeT
            ∧ breakIntersects s dur brk = false
            ∧ (check_conflict d s dur existing).has_conflict = false))) := by
  refine ⟨by decide, by decide, by decide, by decide, ?_⟩
  intro d openT closeT brk dur existing gran s e hg
  exact find_open_slots_mem d openT closeT brk dur existing gran hg s e

/-- C8 witness: the 09:00 to 10:00 slot is a member of the enumerated open
slots of the concrete scenario. -/
theorem find_open_slots_spec_witness :
    ((540 : Nat), (600 : Nat)) ∈ find_open_slots 0 540 1020 (some (720, 780)) 60 [] 30 :=
  (find_open_slots_spec.2.2.2.2 0 540 1020 (some (720, 780)) 60 [] 30 540 600
      (by decide)).mpr
    ⟨⟨0, by decide⟩, by decide, by decide, by decide, by decide⟩

end Appstreamlit
